import Mathlib

/-!
Verification of the Multi-Agent AI Tutoring System (Tutor-AI).

This file shallowly embeds the deterministic parts of the repository in
Lean 4 and proves properties of them:

* `api/main.py` — the fallback content system (`FallbackContentSystem.
  get_python_content`) and the fallback quiz-evaluation path of
  `POST /api/evaluate-quiz`;
* `agents/content_generator.py` — `_assess_source_quality`,
  `_create_bullet_notes` and `_suggest_diagrams`;
* `models/mongodb_models.py` and `services/mongodb_service.py` — the
  document models and the persistence service, modelled as a state
  machine over an in-memory document store in which every driver call
  can fail (raising is modelled by explicit failure flags; `try/except`
  blocks become the corresponding `if` branches).

Python strings are embedded as Lean `String`s.  The Python string
methods used by the code (`lower`, `strip`, `startswith`, `split`,
substring membership, `join`) are re-implemented below on `String.data`
so that they compute by structural recursion.  `lower`/`strip` agree
with Python on the ASCII inputs the program manipulates.  Machine floats
appear only as exact small fractions here; they are embedded as `ℚ`,
and Python's `int()` truncation of a non-negative quotient is embedded
as natural-number division.
-/

/-- Embedding of Python `str.lower()` (character-wise lowering). -/
def pyLower (s : String) : String := ⟨s.data.map Char.toLower⟩

/-- Embedding of Python `str.strip()`: drop whitespace from both ends. -/
def pyStrip (s : String) : String :=
  ⟨((s.data.dropWhile Char.isWhitespace).reverse.dropWhile Char.isWhitespace).reverse⟩

/-- `listContainsSub n h` decides whether `n` occurs as a contiguous
sublist of `h`; helper for the embedding of Python's `in` on strings. -/
def listContainsSub (needle : List Char) : List Char → Bool
  | [] => needle.isEmpty
  | c :: rest => needle.isPrefixOf (c :: rest) || listContainsSub needle rest

/-- Embedding of Python `needle in haystack` on strings. -/
def strContains (needle haystack : String) : Bool :=
  listContainsSub needle.data haystack.data

/-- Embedding of Python `s.startswith(pre)`. -/
def pyStartsWith (pre s : String) : Bool := pre.data.isPrefixOf s.data

/-- Splitting on a separator character, with Python `str.split(sep)`
semantics: the empty string yields `[""]`, separators are not kept. -/
def pySplitChar (sep : Char) : List Char → List (List Char)
  | [] => [[]]
  | c :: rest =>
    let r := pySplitChar sep rest
    if c == sep then [] :: r
    else
      match r with
      | [] => [[c]]
      | h :: t => (c :: h) :: t

/-- Embedding of Python `content.split(sep)` for a one-character separator. -/
def pySplit (sep : Char) (s : String) : List String :=
  (pySplitChar sep s.data).map (fun l => ⟨l⟩)

/-- Embedding of Python `sep.join(xs)`. -/
def pyJoin (sep : String) : List String → String
  | [] => ""
  | [x] => x
  | x :: xs => x ++ sep ++ pyJoin sep xs

namespace FallbackContentSystem

/-- A flashcard of the fallback content (`{"term": ..., "definition": ...}`). -/
structure Flashcard where
  term : String
  definition : String
deriving DecidableEq

/-- The `study_materials` dict of the fallback content: the Python branch
carries three flashcards and a summary string, the generic branch carries
the empty dict, embedded as `⟨[], none⟩`. -/
structure StudyMaterials where
  flashcards : List Flashcard
  summary : Option String
deriving DecidableEq

/-- The dict returned by `FallbackContentSystem.get_python_content`
(`api/main.py`, lines 27–119). -/
structure Content where
  content : String
  key_concepts : List String
  learning_objectives : List String
  study_materials : StudyMaterials
deriving DecidableEq

/-- The fixed body of the Python lesson: everything of the `content`
f-string after the interpolated `# {topic}` heading (`api/main.py`,
lines 28–88, transcribed verbatim). -/
def pythonLessonBody : String :=
  "\n\n## Introduction\nPython is a high-level, interpreted programming language known for its simplicity and readability. It's perfect for beginners and widely used in data science, web development, and automation.\n\n## Key Concepts\n\n### 1. **Variables and Data Types**\n- **Variables**: Containers for storing data\n- **Strings**: Text data (e.g., `\"Hello World\"`)\n- **Integers**: Whole numbers (e.g., `42`)\n- **Floats**: Decimal numbers (e.g., `3.14`)\n- **Lists**: Ordered collections (e.g., `[1, 2, 3]`)\n\n### 2. **Basic Syntax**\n```python\n# This is a comment\nname = \"Python Learner\"  # Variable assignment\nage = 25                 # Integer variable\nheight = 5.9            # Float variable\n\nprint(f\"Hello \x7bname\x7d!\")  # String formatting\n```\n\n### 3. **Control Structures**\n```python\n# If statements\nif age >= 18:\n    print(\"You are an adult\")\nelse:\n    print(\"You are a minor\")\n\n# Loops\nfor i in range(5):\n    print(f\"Count: \x7bi\x7d\")\n```\n\n### 4. **Functions**\n```python\ndef greet(name):\n    return f\"Hello, \x7bname\x7d!\"\n\n# Call the function\nmessage = greet(\"World\")\nprint(message)  # Output: Hello, World!\n```\n\n## Real-World Applications\n- **Web Development**: Django, Flask frameworks\n- **Data Science**: Pandas, NumPy libraries\n- **Machine Learning**: Scikit-learn, TensorFlow\n- **Automation**: Scripts for repetitive tasks\n\n## Study Tips\n1. **Practice Daily**: Code something every day\n2. **Start Small**: Begin with simple programs\n3. **Use Online Resources**: Python.org, Real Python\n4. **Join Communities**: Reddit r/learnpython, Stack Overflow\n\n## Summary\nPython is an excellent first programming language. Focus on understanding basic syntax, practice regularly, and build small projects to reinforce your learning."

/-- The fixed `key_concepts` list of the Python lesson. -/
def pythonKeyConcepts : List String :=
  ["Variables and Data Types",
   "Basic Syntax and Comments",
   "Control Structures (if/else, loops)",
   "Functions and Parameters",
   "String Formatting",
   "Lists and Collections"]

/-- The fixed `learning_objectives` list of the Python lesson. -/
def pythonLearningObjectives : List String :=
  ["Understand Python syntax and structure",
   "Create and use variables of different types",
   "Write basic control structures and loops",
   "Define and call functions",
   "Apply Python concepts to solve problems"]

/-- The fixed `study_materials` dict of the Python lesson. -/
def pythonStudyMaterials : StudyMaterials :=
  { flashcards :=
      [⟨"Variable", "A container for storing data in Python"⟩,
       ⟨"Function", "A reusable block of code that performs a specific task"⟩,
       ⟨"Loop", "A control structure that repeats code multiple times"⟩],
    summary :=
      some "Python basics including variables, data types, control structures, and functions." }

/-- The Python-lesson branch of `get_python_content`: a function of the
topic alone (only the `# {topic}` heading is interpolated). -/
def pythonLesson (topic : String) : Content :=
  { content := "# " ++ topic ++ pythonLessonBody,
    key_concepts := pythonKeyConcepts,
    learning_objectives := pythonLearningObjectives,
    study_materials := pythonStudyMaterials }

/-- The generic branch of `get_python_content` (`api/main.py`,
lines 113–119): a minimal templated stub naming topic and subject. -/
def genericFallback (topic subject : String) : Content :=
  { content :=
      "# " ++ topic ++ "\n\nThis is fallback content for " ++ topic ++ " in " ++
        subject ++ ". The AI content generation is currently unavailable due to API rate limits.",
    key_concepts := ["Basic concepts", "Fundamental principles"],
    learning_objectives := ["Understand " ++ topic, "Apply basic knowledge"],
    study_materials := ⟨[], none⟩ }

/-- `FallbackContentSystem.get_python_content` (`api/main.py`,
lines 23–119).  Dispatch: `if "python" in topic.lower()`. -/
def get_python_content (topic difficulty subject content_type : String) : Content :=
  if strContains "python" (pyLower topic) then pythonLesson topic
  else genericFallback topic subject

end FallbackContentSystem

/-- An element of `submission.answers` in `POST /api/evaluate-quiz`: an
arbitrary dict of which the fallback path reads only `answer.get('answer', '')`,
embedded as an optional field. -/
structure AnswerDict where
  answer : Option String
deriving DecidableEq

/-- An element of `submission.questions`: an arbitrary dict of which the
fallback path reads only `question.get('correctAnswer', '')`. -/
structure QuestionDict where
  correctAnswer : Option String
deriving DecidableEq

/-- The `QuizSubmission` request body of `POST /api/evaluate-quiz`. -/
structure QuizSubmission where
  questions : List QuestionDict
  answers : List AnswerDict
  topic : String

/-- The `FeedbackResponse` body; `detailedAnalysis` is flattened into its
three list fields. -/
structure FeedbackResponse where
  score : Nat
  feedback : String
  recommendations : List String
  strengths : List String
  weaknesses : List String
  areas_for_improvement : List String
deriving DecidableEq

/-- One comparison of the fallback loop (`api/main.py`, line 533):
`user_answer.lower().strip() == correct_answer.lower().strip()`. -/
def answers_match (a : AnswerDict) (q : QuestionDict) : Bool :=
  pyStrip (pyLower (a.answer.getD "")) == pyStrip (pyLower (q.correctAnswer.getD ""))

/-- The counting loop of the fallback path (`api/main.py`, lines 529–534):
`submission.answers[i]` raises `IndexError` when the answer list is
shorter than the question list; extra answers are ignored. -/
def count_correct : List QuestionDict → List AnswerDict → Except String Nat
  | [], _ => .ok 0
  | _ :: _, [] => .error "IndexError: list index out of range"
  | q :: qs, a :: as =>
    match count_correct qs as with
    | .error e => .error e
    | .ok n => .ok ((if answers_match a q then 1 else 0) + n)

/-- The number of indices at which the submitted answer matches the
question's correct answer (closed form of the loop count). -/
def match_count (qs : List QuestionDict) (as' : List AnswerDict) : Nat :=
  ((qs.zip as').filter (fun p => answers_match p.2 p.1)).length

/-- Round-half-to-even of the ratio `n / d` (`d > 0`), over naturals:
the integer quotient, bumped when the remainder exceeds half the
divisor, with ties broken to the even quotient — the IEEE 754 default
rounding used by hardware floats. -/
def rnHalfEvenNatDiv (n d : Nat) : Nat :=
  let q := n / d
  let r := n % d
  if 2 * r < d then q
  else if d < 2 * r then q + 1
  else if q % 2 = 0 then q else q + 1

/-- Binary normalisation by fuelled search: shifts `(sn, sd)` such that
`(n·2^sn) / (d·2^sd)` lies in the binary64 mantissa range
`[2^52, 2^53)`.  The fuel covers the whole double exponent range. -/
def normShifts : Nat → Nat → Nat → Nat × Nat → Nat × Nat
  | 0, _, _, s => s
  | fuel + 1, n, d, (sn, sd) =>
    if n * 2 ^ sn < 2 ^ 52 * (d * 2 ^ sd) then normShifts fuel n d (sn + 1, sd)
    else if 2 ^ 53 * (d * 2 ^ sd) ≤ n * 2 ^ sn then normShifts fuel n d (sn, sd + 1)
    else (sn, sd)

/-- The non-negative rational `n / d` (`d > 0`) rounded to the nearest
IEEE binary64 value (ties to even), returned exactly as a mantissa and
a binary exponent, with subnormal underflow quantised at `2^(-1074)`.
This is the value CPython's int/int true division and float
multiplication produce for the magnitudes reachable in this program
(beyond the binary64 range Python would raise `OverflowError`, which no
call path here can reach). -/
def roundToF64 (n d : Nat) : Nat × Int :=
  if n = 0 then (0, 0)
  else
    let s := normShifts 2200 n d (0, 0)
    let e : Int := (s.2 : Int) - s.1
    if e < -1074 then (rnHalfEvenNatDiv (n * 2 ^ 1074) d, -1074)
    else (rnHalfEvenNatDiv (n * 2 ^ s.1) (d * 2 ^ s.2), e)

/-- The score expression of the fallback path (`api/main.py`, line 536):
`int((correct_count / total_questions) * 100) if total_questions > 0
else 0`, computed the way CPython computes it — the true division
rounds to the nearest binary64 value, the multiplication by the exact
float `100.0` rounds again, and `int()` truncates toward zero.  This
differs from exact arithmetic: 29 of 100 gives 28, not 29. -/
def pyFloatScore (correct_count total_questions : Nat) : Nat :=
  if 0 < total_questions then
    let f1 := roundToF64 correct_count total_questions
    let f2 :=
      if 0 ≤ f1.2 then roundToF64 (f1.1 * 100 * 2 ^ f1.2.toNat) 1
      else roundToF64 (f1.1 * 100) (2 ^ (-f1.2).toNat)
    if 0 ≤ f2.2 then f2.1 * 2 ^ f2.2.toNat else f2.1 / 2 ^ (-f2.2).toNat
  else 0

/-- The response built by the fallback branch of `evaluate_quiz`
(`api/main.py`, lines 536–556) from the counted result; the score is
the float-truncated `pyFloatScore`. -/
def fallback_feedback (correct_count total_questions : Nat) : FeedbackResponse :=
  let score : Nat := pyFloatScore correct_count total_questions
  let feedback : String :=
    if 80 ≤ score then "Excellent work! You have a strong understanding of the material."
    else if 60 ≤ score then "Good job! You understand most concepts but could review some areas."
    else "Keep studying! Review the material and practice more to improve your understanding."
  { score := score,
    feedback := feedback,
    recommendations :=
      ["Review the questions you missed",
       "Practice with similar problems",
       "Focus on understanding the underlying concepts"],
    strengths :=
      ["Correctly answered " ++ toString correct_count ++ " out of " ++
        toString total_questions ++ " questions"],
    weaknesses :=
      ["Missed " ++ toString (total_questions - correct_count) ++ " questions"],
    areas_for_improvement := ["Review incorrect answers", "Practice more problems"] }

/-- The fallback branch of `evaluate_quiz` (`api/main.py`, lines 523–565):
count the matches (which may raise) and build the response. -/
def fallback_evaluate (questions : List QuestionDict) (answers : List AnswerDict) :
    Except String FeedbackResponse :=
  match count_correct questions answers with
  | .error e => .error e
  | .ok correct_count => .ok (fallback_feedback correct_count questions.length)

/-- What `POST /api/evaluate-quiz` sends back: either a 200 body or an
`HTTPException` with a status code and detail string. -/
inductive ApiResult (α : Type) where
  | ok (value : α)
  | httpError (status : Nat) (detail : String)
deriving DecidableEq

/-- The `evaluate_quiz` handler when no feedback agent is loaded
(`api/main.py`, lines 467–569): the fallback path runs inside the outer
`try`, and any exception becomes `HTTPException(status_code=500,
detail=f"Failed to evaluate quiz: {e}")`. -/
def evaluate_quiz_no_agent (sub : QuizSubmission) : ApiResult FeedbackResponse :=
  match fallback_evaluate sub.questions sub.answers with
  | .ok r => .ok r
  | .error e => .httpError 500 ("Failed to evaluate quiz: " ++ e)

/-- Score of a successful evaluation, `none` when it raised. -/
def except_score : Except String FeedbackResponse → Option Nat
  | .ok r => some r.score
  | .error _ => none

namespace ContentGeneratorAgent

/-- A retrieved snippet as read by `_assess_source_quality`
(`agents/content_generator.py`): a dict of which `title` and `content`
are read with `.get(..., '')`, embedded as optional fields. -/
structure Source where
  title : Option String
  content : Option String

/-- The five fixed trust keywords (`quality_indicators`, line 103). -/
def quality_indicators : List String :=
  ["academic", "peer-reviewed", "textbook", "educational", "university"]

/-- The per-source inner loop of `_assess_source_quality` (lines 106–112):
how many of the five indicators occur in `(title + ' ' + content).lower()`. -/
def indicator_count (s : Source) : Nat :=
  (quality_indicators.filter
    (fun indicator =>
      strContains indicator (pyLower (s.title.getD "" ++ " " ++ s.content.getD "")))).length

/-- `_assess_source_quality` (`agents/content_generator.py`, lines 98–114),
with the float arithmetic embedded in `ℚ`:
`0.0` for no sources, otherwise `min(total_score / len(sources), 1.0)` where
each source contributes `score / len(quality_indicators)`. -/
def assess_source_quality (sources : List Source) : ℚ :=
  if sources.isEmpty then 0
  else
    min (((sources.map (fun s => (indicator_count s : ℚ) / quality_indicators.length)).sum) /
          sources.length) 1

/-- A named entity as produced by the NLP collaborator and consumed by
`_create_study_materials` / `_suggest_diagrams`: a dict with a `text`
and a `label` field. -/
structure Entity where
  text : String
  label : String

/-- The bullet marker prepended by `_create_bullet_notes` (line 307).
The source file's literal decodes to the four characters U+00E2 U+20AC
U+00A2 and a space. -/
def bulletMarker : String := "â€¢ "

/-- The per-line filter of `_create_bullet_notes` (lines 303–307): the
stripped line is nonempty, longer than 20 characters, does not start
with `#`, contains a period, and is shorter than 200 characters. -/
def good_bullet_line (line : String) : Bool :=
  (line != "") && (20 < line.length) && !(pyStartsWith "#" line) &&
    (line.data.contains '.') && (line.length < 200)

/-- The full `bullet_notes` list of `_create_bullet_notes` before the
final `[:15]` truncation: each qualifying stripped line, bullet-prefixed. -/
def bullet_notes_list (content : String) : List String :=
  (pySplit '\n' content).filterMap
    (fun raw =>
      let line := pyStrip raw
      if good_bullet_line line then some (bulletMarker ++ line) else none)

/-- `_create_bullet_notes` (`agents/content_generator.py`, lines 298–309):
`'\n'.join(bullet_notes[:15])`. -/
def create_bullet_notes (content : String) : String :=
  pyJoin "\n" ((bullet_notes_list content).take 15)

/-- The candidate list of `_suggest_diagrams` (lines 311–329) before the
final `[:3]` truncation: the fixed keyword decision table on the lowered
topic, then the entity-count rule, then `"Summary Infographic"`. -/
def suggestions_before_cap (topic : String) (entities : List Entity) : List String :=
  (if ["process", "cycle", "steps"].any (fun word => strContains word (pyLower topic)) then
    ["Process Flow Diagram"] else []) ++
  (if ["structure", "anatomy", "parts"].any (fun word => strContains word (pyLower topic)) then
    ["Labeled Diagram"] else []) ++
  (if ["compare", "vs", "difference"].any (fun word => strContains word (pyLower topic)) then
    ["Comparison Chart"] else []) ++
  (if 5 < entities.length then ["Mind Map", "Concept Map"] else []) ++
  ["Summary Infographic"]

/-- `_suggest_diagrams` (`agents/content_generator.py`, lines 311–331):
`return suggestions[:3]`. -/
def suggest_diagrams (topic : String) (entities : List Entity) : List String :=
  (suggestions_before_cap topic entities).take 3

end ContentGeneratorAgent

/-!
Persistence layer (`models/mongodb_models.py`, `services/mongodb_service.py`).

Each Mongo collection is embedded as an association list of documents
keyed by a `Nat` object id; the service's `_id` generator is a fresh
counter `nextId`.  Timestamps (`datetime.utcnow()`) are `Nat` parameters,
floats are `ℚ`, Python ints that may be negative are `Int`.  A driver
call that raises is modelled by a `fail : Bool` flag on the call; the
`try/except` wrapper of every service method becomes the corresponding
`if fail` branch, which returns the method's sentinel and leaves the
store as it was at the point of failure.  Driver-side computations that
are external to this repository (the `$text` relevance search and the
aggregation pipelines) are modelled by passing the driver's result list
as an oracle argument.
-/

/-- `find_one` / first-match lookup by object id. -/
def findDoc : List (Nat × α) → Nat → Option α
  | [], _ => none
  | (i, d) :: rest, id => if i = id then some d else findDoc rest id

/-- `update_one`: rewrite the first document matching the id, if any. -/
def updateById : List (Nat × α) → Nat → (α → α) → List (Nat × α)
  | [], _, _ => []
  | (i, d) :: rest, id, f =>
    if i = id then (i, f d) :: rest else (i, d) :: updateById rest id f

/-- Insertion step of a descending sort by a `Nat` sort key. -/
def insertDescBy (key : α → Nat) (a : α) : List α → List α
  | [] => [a]
  | b :: t => if key b ≤ key a then a :: b :: t else b :: insertDescBy key a t

/-- `sort(field, -1)`: descending sort by a `Nat` sort key. -/
def sortDescBy (key : α → Nat) : List α → List α
  | [] => []
  | a :: t => insertDescBy key a (sortDescBy key t)

/-- A document of the `content` collection (`ContentModel.create_content`). -/
structure ContentDoc where
  title : String
  content : String
  subject : String
  topic : String
  content_type : String
  difficulty : String
  learning_objectives : List String
  key_concepts : List String
  tags : List String
  created_at : Nat
  updated_at : Nat
  views : Nat
  rating : ℚ
  ratings_count : Nat

/-- Arguments of `ContentModel.create_content`, with the Python defaults;
`x or []` on an optional list argument is embedded as `Option.getD []`. -/
structure ContentArgs where
  title : String
  content : String
  subject : String
  topic : String
  content_type : String := "lesson"
  difficulty : String := "intermediate"
  learning_objectives : Option (List String) := none
  key_concepts : Option (List String) := none
  tags : Option (List String) := none

namespace ContentModel

/-- `ContentModel.create_content` (`models/mongodb_models.py`, lines 8–36). -/
def create_content (a : ContentArgs) (now : Nat) : ContentDoc :=
  { title := a.title,
    content := a.content,
    subject := pyLower a.subject,
    topic := pyLower a.topic,
    content_type := a.content_type,
    difficulty := pyLower a.difficulty,
    learning_objectives := a.learning_objectives.getD [],
    key_concepts := a.key_concepts.getD [],
    tags := a.tags.getD [],
    created_at := now,
    updated_at := now,
    views := 0,
    rating := 0,
    ratings_count := 0 }

end ContentModel

/-- A document of the `user_progress` collection. -/
structure ProgressDoc where
  user_id : String
  subject : String
  topic : String
  score : ℚ
  total_questions : Nat
  correct_answers : Nat
  time_spent : Int
  difficulty : String
  timestamp : Nat
  performance_level : String

/-- Arguments of `UserProgressModel.create_progress`, with defaults. -/
structure ProgressArgs where
  user_id : String
  subject : String
  topic : String
  score : ℚ
  total_questions : Nat
  correct_answers : Nat
  time_spent : Int := 0
  difficulty : String := "medium"

namespace UserProgressModel

/-- `UserProgressModel._calculate_performance_level`
(`models/mongodb_models.py`, lines 72–84); the leading underscore of the
source name is dropped for Lean. -/
def calculate_performance_level (score : ℚ) : String :=
  if 90 ≤ score then "excellent"
  else if 80 ≤ score then "good"
  else if 70 ≤ score then "satisfactory"
  else if 60 ≤ score then "needs_improvement"
  else "requires_attention"

/-- `UserProgressModel.create_progress` (lines 47–70). -/
def create_progress (a : ProgressArgs) (now : Nat) : ProgressDoc :=
  { user_id := a.user_id,
    subject := pyLower a.subject,
    topic := pyLower a.topic,
    score := a.score,
    total_questions := a.total_questions,
    correct_answers := a.correct_answers,
    time_spent := a.time_spent,
    difficulty := pyLower a.difficulty,
    timestamp := now,
    performance_level := calculate_performance_level a.score }

end UserProgressModel

/-- A document of the `questions` collection.  `correct_count` and
`total_time` are not set by `create_question`; they are created by the
`$inc` of `update_question_stats`, whose read side defaults both to `0`,
so they are embedded as fields initialised to `0`. -/
structure QuestionDoc where
  question : String
  question_type : String
  subject : String
  topic : String
  difficulty : String
  bloom_level : String
  correct_answer : String
  options : List String
  explanation : String
  key_points : List String
  tags : List String
  created_at : Nat
  usage_count : Nat
  success_rate : ℚ
  average_time : Int
  correct_count : Nat
  total_time : Int

/-- Arguments of `QuestionModel.create_question`, with defaults. -/
structure QuestionArgs where
  question : String
  question_type : String
  subject : String
  topic : String
  difficulty : String
  bloom_level : String
  correct_answer : String
  options : Option (List String) := none
  explanation : Option String := none
  key_points : Option (List String) := none
  tags : Option (List String) := none

namespace QuestionModel

/-- `QuestionModel.create_question` (`models/mongodb_models.py`,
lines 89–120). -/
def create_question (a : QuestionArgs) (now : Nat) : QuestionDoc :=
  { question := a.question,
    question_type := pyLower a.question_type,
    subject := pyLower a.subject,
    topic := pyLower a.topic,
    difficulty := pyLower a.difficulty,
    bloom_level := pyLower a.bloom_level,
    correct_answer := a.correct_answer,
    options := a.options.getD [],
    explanation := a.explanation.getD "",
    key_points := a.key_points.getD [],
    tags := a.tags.getD [],
    created_at := now,
    usage_count := 0,
    success_rate := 0,
    average_time := 0,
    correct_count := 0,
    total_time := 0 }

end QuestionModel

/-- The `learning_preferences` sub-document of a user. -/
structure LearningPreferences where
  difficulty_preference : String
  preferred_subjects : List String
  learning_style : String
  daily_goal : Nat

/-- A document of the `users` collection. -/
structure UserDoc where
  username : String
  email : String
  learning_preferences : LearningPreferences
  subjects_of_interest : List String
  created_at : Nat
  last_login : Nat
  total_study_time : Int
  completed_topics : List String
  achievements : List String

/-- Arguments of `UserModel.create_user`, with defaults. -/
structure UserArgs where
  username : String
  email : String
  learning_preferences : Option LearningPreferences := none
  subjects_of_interest : Option (List String) := none

namespace UserModel

/-- `UserModel.create_user` (`models/mongodb_models.py`, lines 125–148). -/
def create_user (a : UserArgs) (now : Nat) : UserDoc :=
  { username := a.username,
    email := a.email,
    learning_preferences :=
      a.learning_preferences.getD
        { difficulty_preference := "medium",
          preferred_subjects := [],
          learning_style := "visual",
          daily_goal := 30 },
    subjects_of_interest := a.subjects_of_interest.getD [],
    created_at := now,
    last_login := now,
    total_study_time := 0,
    completed_topics := [],
    achievements := [] }

end UserModel

/-- A document of the `study_sessions` collection. -/
structure SessionDoc where
  user_id : String
  subject : String
  topic : String
  session_type : String
  start_time : Nat
  end_time : Option Nat
  duration : Int
  questions_answered : Nat
  correct_answers : Nat
  score : ℚ
  status : String

/-- Arguments of `StudySessionModel.create_session`, with defaults. -/
structure SessionArgs where
  user_id : String
  subject : String
  topic : String
  session_type : String := "practice"

/-- The `$set` payload returned by `StudySessionModel.end_session`. -/
structure SessionEndSet where
  end_time : Nat
  duration : Int
  score : ℚ
  status : String

namespace StudySessionModel

/-- `StudySessionModel.create_session` (`models/mongodb_models.py`,
lines 153–173). -/
def create_session (a : SessionArgs) (now : Nat) : SessionDoc :=
  { user_id := a.user_id,
    subject := pyLower a.subject,
    topic := pyLower a.topic,
    session_type := a.session_type,
    start_time := now,
    end_time := none,
    duration := 0,
    questions_answered := 0,
    correct_answers := 0,
    score := 0,
    status := "active" }

/-- `StudySessionModel.end_session` (lines 175–185): builds the `$set`
update; the `session_id` argument is unused in the source as well. -/
def end_session (session_id : Nat) (final_score : ℚ) (duration : Int) (now : Nat) :
    SessionEndSet :=
  { end_time := now, duration := duration, score := final_score, status := "completed" }

end StudySessionModel

/-- Applying the `$set` of `end_session` to a session document. -/
def applyEndSet (u : SessionEndSet) (d : SessionDoc) : SessionDoc :=
  { d with
    end_time := some u.end_time,
    duration := u.duration,
    score := u.score,
    status := u.status }

/-- Aggregation row of `get_user_performance_summary` (driver-computed). -/
structure PerfGroup where
  group_subject : String
  total_sessions : Nat
  average_score : ℚ
  best_score : ℚ
  total_questions : Nat
  total_correct : Nat
  total_time : Int

/-- Aggregation row of `get_subject_analytics` (driver-computed). -/
structure AnalyticsRow where
  topic : String
  total_sessions : Nat
  average_score : ℚ
  unique_users : Nat

/-- Aggregation row of `get_daily_activity` (driver-computed). -/
structure ActivityRow where
  date : String
  subject : String
  total_sessions : Nat
  average_score : ℚ

/-- The document store behind `MongoDBService`: the five collections and
the id counter. -/
structure DB where
  content : List (Nat × ContentDoc) := []
  progress : List (Nat × ProgressDoc) := []
  questions : List (Nat × QuestionDoc) := []
  users : List (Nat × UserDoc) := []
  sessions : List (Nat × SessionDoc) := []
  nextId : Nat := 0

/-- The empty store. -/
def emptyDB : DB := {}

namespace MongoDBService

/-- `add_content` (`services/mongodb_service.py`, lines 22–30): insert,
return the string of the new id; on a driver exception return `None`. -/
def add_content (fail : Bool) (a : ContentArgs) (now : Nat) (db : DB) :
    Option String × DB :=
  if fail then (none, db)
  else
    (some (toString db.nextId),
     { db with
       content := db.content ++ [(db.nextId, ContentModel.create_content a now)],
       nextId := db.nextId + 1 })

/-- `get_content_by_subject` (lines 32–41): filter by lowered subject,
sort by `created_at` descending, limit; `[]` on a driver exception. -/
def get_content_by_subject (fail : Bool) (subject : String) (limit : Nat) (db : DB) :
    List (Nat × ContentDoc) :=
  if fail then []
  else
    (sortDescBy (fun p => p.2.created_at)
      (db.content.filter (fun p => p.2.subject == pyLower subject))).take limit

/-- `search_content` (lines 43–54): the `$text` search and its relevance
sort run in the driver, which is external to this repository; its cursor
is the oracle argument.  `[]` on a driver exception. -/
def search_content (fail : Bool) (query : String) (subject : Option String)
    (textSearchResult : List (Nat × ContentDoc)) : List (Nat × ContentDoc) :=
  if fail then [] else textSearchResult

/-- `update_content_views` (lines 56–64): `$inc views 1` on the matched
document; the method returns `None` either way. -/
def update_content_views (fail : Bool) (content_id : Nat) (db : DB) : Unit × DB :=
  if fail then ((), db)
  else
    ((), { db with
           content := updateById db.content content_id
             (fun d => { d with views := d.views + 1 }) })

/-- `save_user_progress` (lines 67–75). -/
def save_user_progress (fail : Bool) (a : ProgressArgs) (now : Nat) (db : DB) :
    Option String × DB :=
  if fail then (none, db)
  else
    (some (toString db.nextId),
     { db with
       progress := db.progress ++ [(db.nextId, UserProgressModel.create_progress a now)],
       nextId := db.nextId + 1 })

/-- `get_user_progress` (lines 77–88). -/
def get_user_progress (fail : Bool) (user_id : String) (subject : Option String)
    (db : DB) : List (Nat × ProgressDoc) :=
  if fail then []
  else
    sortDescBy (fun p => p.2.timestamp)
      (db.progress.filter (fun p =>
        p.2.user_id == user_id &&
          match subject with
          | some s => p.2.subject == pyLower s
          | none => true))

/-- `get_user_performance_summary` (lines 90–111): the aggregation
pipeline runs in the driver; `[]` on a driver exception. -/
def get_user_performance_summary (fail : Bool) (user_id : String)
    (aggregationResult : List PerfGroup) : List PerfGroup :=
  if fail then [] else aggregationResult

/-- `add_question` (lines 114–122). -/
def add_question (fail : Bool) (a : QuestionArgs) (now : Nat) (db : DB) :
    Option String × DB :=
  if fail then (none, db)
  else
    (some (toString db.nextId),
     { db with
       questions := db.questions ++ [(db.nextId, QuestionModel.create_question a now)],
       nextId := db.nextId + 1 })

/-- `get_questions_by_topic` (lines 124–138). -/
def get_questions_by_topic (fail : Bool) (subject topic : String)
    (difficulty : Option String) (limit : Nat) (db : DB) : List (Nat × QuestionDoc) :=
  if fail then []
  else
    (db.questions.filter (fun p =>
      p.2.subject == pyLower subject && p.2.topic == pyLower topic &&
        match difficulty with
        | some d => p.2.difficulty == pyLower d
        | none => true)).take limit

/-- `update_question_stats` (lines 140–168): a `$inc` update, a
`find_one`, and a `$set` of the recomputed success rate; each driver
call can raise, and a raise leaves the store as it was at that point. -/
def update_question_stats (fail1 fail2 fail3 : Bool) (question_id : Nat)
    (is_correct : Bool) (time_taken : Int) (db : DB) : Unit × DB :=
  if fail1 then ((), db)
  else
    let db1 :=
      { db with
        questions := updateById db.questions question_id
          (fun q =>
            { q with
              usage_count := q.usage_count + 1,
              total_time := q.total_time + time_taken,
              correct_count := if is_correct then q.correct_count + 1 else q.correct_count }) }
    if fail2 then ((), db1)
    else
      match findDoc db1.questions question_id with
      | some q =>
        if 0 < q.usage_count then
          if fail3 then ((), db1)
          else
            ((), { db1 with
                   questions := updateById db1.questions question_id
                     (fun qq => { qq with success_rate := (q.correct_count : ℚ) / q.usage_count }) })
        else ((), db1)
      | none => ((), db1)

/-- `create_user` (lines 171–179). -/
def create_user (fail : Bool) (a : UserArgs) (now : Nat) (db : DB) :
    Option String × DB :=
  if fail then (none, db)
  else
    (some (toString db.nextId),
     { db with
       users := db.users ++ [(db.nextId, UserModel.create_user a now)],
       nextId := db.nextId + 1 })

/-- `get_user` (lines 181–187): `find_one`, `None` on a driver exception. -/
def get_user (fail : Bool) (user_id : Nat) (db : DB) : Option UserDoc :=
  if fail then none else findDoc db.users user_id

/-- `update_user_preferences` (lines 189–197). -/
def update_user_preferences (fail : Bool) (user_id : Nat)
    (preferences : LearningPreferences) (db : DB) : Unit × DB :=
  if fail then ((), db)
  else
    ((), { db with
           users := updateById db.users user_id
             (fun u => { u with learning_preferences := preferences }) })

/-- `start_study_session` (lines 200–208). -/
def start_study_session (fail : Bool) (a : SessionArgs) (now : Nat) (db : DB) :
    Option String × DB :=
  if fail then (none, db)
  else
    (some (toString db.nextId),
     { db with
       sessions := db.sessions ++ [(db.nextId, StudySessionModel.create_session a now)],
       nextId := db.nextId + 1 })

/-- `end_study_session` (lines 210–219): apply the `$set` of
`StudySessionModel.end_session` to the matched session. -/
def end_study_session (fail : Bool) (session_id : Nat) (final_score : ℚ)
    (duration : Int) (now : Nat) (db : DB) : Unit × DB :=
  if fail then ((), db)
  else
    ((), { db with
           sessions := updateById db.sessions session_id
             (applyEndSet (StudySessionModel.end_session session_id final_score duration now)) })

/-- `get_user_sessions` (lines 221–230). -/
def get_user_sessions (fail : Bool) (user_id : String) (limit : Nat) (db : DB) :
    List (Nat × SessionDoc) :=
  if fail then []
  else
    (sortDescBy (fun p => p.2.start_time)
      (db.sessions.filter (fun p => p.2.user_id == user_id))).take limit

/-- `get_subject_analytics` (lines 233–256): aggregation in the driver. -/
def get_subject_analytics (fail : Bool) (subject : String)
    (aggregationResult : List AnalyticsRow) : List AnalyticsRow :=
  if fail then [] else aggregationResult

/-- `get_daily_activity` (lines 258–280): aggregation in the driver. -/
def get_daily_activity (fail : Bool) (days : Nat)
    (aggregationResult : List ActivityRow) : List ActivityRow :=
  if fail then [] else aggregationResult

/-- `create_text_indexes` (lines 283–302): index creation does not
change any document. -/
def create_text_indexes (fail : Bool) (db : DB) : Unit × DB := ((), db)

/-- `cleanup_old_sessions` (lines 304–314): `delete_many` of completed
sessions whose `end_time` is older than the cutoff (`end_time: null`
does not match `$lt`). -/
def cleanup_old_sessions (fail : Bool) (cutoff : Nat) (db : DB) : Unit × DB :=
  if fail then ((), db)
  else
    ((), { db with
           sessions := db.sessions.filter (fun p =>
             !(p.2.status == "completed" &&
                match p.2.end_time with
                | some t => decide (t < cutoff)
                | none => false)) })

end MongoDBService

/-- One invocation of a `MongoDBService` method, with its arguments, its
timestamps, its driver-failure flags, and the oracle results of
driver-side computations. -/
inductive ServiceOp where
  | addContent (fail : Bool) (a : ContentArgs) (now : Nat)
  | getContentBySubject (fail : Bool) (subject : String) (limit : Nat)
  | searchContent (fail : Bool) (query : String) (subject : Option String)
      (oracle : List (Nat × ContentDoc))
  | updateContentViews (fail : Bool) (content_id : Nat)
  | saveUserProgress (fail : Bool) (a : ProgressArgs) (now : Nat)
  | getUserProgress (fail : Bool) (user_id : String) (subject : Option String)
  | getUserPerformanceSummary (fail : Bool) (user_id : String) (oracle : List PerfGroup)
  | addQuestion (fail : Bool) (a : QuestionArgs) (now : Nat)
  | getQuestionsByTopic (fail : Bool) (subject topic : String)
      (difficulty : Option String) (limit : Nat)
  | updateQuestionStats (fail1 fail2 fail3 : Bool) (question_id : Nat)
      (is_correct : Bool) (time_taken : Int)
  | createUser (fail : Bool) (a : UserArgs) (now : Nat)
  | getUser (fail : Bool) (user_id : Nat)
  | updateUserPreferences (fail : Bool) (user_id : Nat) (preferences : LearningPreferences)
  | startStudySession (fail : Bool) (a : SessionArgs) (now : Nat)
  | endStudySession (fail : Bool) (session_id : Nat) (final_score : ℚ)
      (duration : Int) (now : Nat)
  | getUserSessions (fail : Bool) (user_id : String) (limit : Nat)
  | getSubjectAnalytics (fail : Bool) (subject : String) (oracle : List AnalyticsRow)
  | getDailyActivity (fail : Bool) (days : Nat) (oracle : List ActivityRow)
  | createTextIndexes (fail : Bool)
  | cleanupOldSessions (fail : Bool) (cutoff : Nat)

/-- The effect of one service call on the store (read-only calls leave
it unchanged). -/
def applyOp (op : ServiceOp) (db : DB) : DB :=
  match op with
  | .addContent fail a now => (MongoDBService.add_content fail a now db).2
  | .getContentBySubject _ _ _ => db
  | .searchContent _ _ _ _ => db
  | .updateContentViews fail cid => (MongoDBService.update_content_views fail cid db).2
  | .saveUserProgress fail a now => (MongoDBService.save_user_progress fail a now db).2
  | .getUserProgress _ _ _ => db
  | .getUserPerformanceSummary _ _ _ => db
  | .addQuestion fail a now => (MongoDBService.add_question fail a now db).2
  | .getQuestionsByTopic _ _ _ _ _ => db
  | .updateQuestionStats f1 f2 f3 qid ok t =>
    (MongoDBService.update_question_stats f1 f2 f3 qid ok t db).2
  | .createUser fail a now => (MongoDBService.create_user fail a now db).2
  | .getUser _ _ => db
  | .updateUserPreferences fail uid p =>
    (MongoDBService.update_user_preferences fail uid p db).2
  | .startStudySession fail a now => (MongoDBService.start_study_session fail a now db).2
  | .endStudySession fail sid sc dur now =>
    (MongoDBService.end_study_session fail sid sc dur now db).2
  | .getUserSessions _ _ _ => db
  | .getSubjectAnalytics _ _ _ => db
  | .getDailyActivity _ _ _ => db
  | .createTextIndexes fail => (MongoDBService.create_text_indexes fail db).2
  | .cleanupOldSessions fail cutoff => (MongoDBService.cleanup_old_sessions fail cutoff db).2

/-- The store after a sequence of service calls, starting empty. -/
def applyOps (ops : List ServiceOp) : DB :=
  ops.foldl (fun db op => applyOp op db) emptyDB

/-- Store well-formedness: session ids are distinct and below the
counter.  Every reachable store satisfies it. -/
def DBwf (db : DB) : Prop :=
  (db.sessions.map Prod.fst).Nodup ∧ ∀ p ∈ db.sessions, p.1 < db.nextId

/-- The two session statuses the persistence layer ever writes. -/
def sessionStatusOk (d : SessionDoc) : Prop :=
  d.status = "active" ∨ d.status = "completed"

/-!  Concrete data used by witnesses and counterexamples. -/

/-- Ten fallback-evaluated questions whose correct answer is `O(1)`. -/
def exampleQuestions10 : List QuestionDict := List.replicate 10 ⟨some "O(1)"⟩

/-- Ten submitted answers: seven ` O(1) ` (correct up to case and
whitespace) and three wrong ones. -/
def exampleAnswers10 : List AnswerDict :=
  List.replicate 7 ⟨some " O(1) "⟩ ++ List.replicate 3 ⟨some "O(n)"⟩

/-- Three questions with correct answer `a`. -/
def cexQuestions3 : List QuestionDict := [⟨some "a"⟩, ⟨some "a"⟩, ⟨some "a"⟩]

/-- Three answers, two of them correct. -/
def cexAnswers3 : List AnswerDict := [⟨some "a"⟩, ⟨some "a"⟩, ⟨some "b"⟩]

/-- A retrieved snippet mentioning four of the five trust keywords. -/
def exampleSource : ContentGeneratorAgent.Source :=
  ⟨some "University Physics Textbook", some "peer-reviewed academic material"⟩

/-- Six extracted entities (more than five). -/
def sixEntities : List ContentGeneratorAgent.Entity :=
  List.replicate 6 ⟨"cell", "CONCEPT"⟩

/-- Session arguments used by the lifecycle witness. -/
def exampleSessionArgs : SessionArgs := ⟨"u1", "Math", "Algebra", "practice"⟩

/-- A store holding one active session with id `0`, started at time `5`. -/
def dbWithSession : DB :=
  (MongoDBService.start_study_session false exampleSessionArgs 5 emptyDB).2

/-- A paragraph with one qualifying bullet line. -/
def exampleNotesInput : String :=
  "# Heading\nThis sentence is long enough to qualify as a bullet point. Indeed.\nshort one.\n"

/-!  Lemmas about the fallback quiz evaluation. -/

/-- When there is an answer for every question, the counting loop does
not raise and computes the closed-form match count. -/
theorem count_correct_ok :
    ∀ (qs : List QuestionDict) (as' : List AnswerDict), qs.length ≤ as'.length →
      count_correct qs as' = .ok (match_count qs as')
  | [], as', _ => by simp [count_correct, match_count]
  | q :: qs, [], h => by simp at h
  | q :: qs, a :: as', h => by
    have h' : qs.length ≤ as'.length := by simpa using h
    have ih := count_correct_ok qs as' h'
    by_cases hm : answers_match a q <;>
      simp [count_correct, ih, match_count, hm, Nat.add_comm]

/-- When the answer list is shorter than the question list, the counting
loop raises `IndexError`. -/
theorem count_correct_err :
    ∀ (qs : List QuestionDict) (as' : List AnswerDict), as'.length < qs.length →
      count_correct qs as' = .error "IndexError: list index out of range"
  | [], _, h => by simp at h
  | q :: qs, [], _ => rfl
  | q :: qs, a :: as', h => by
    have h' : as'.length < qs.length := by simpa using h
    simp [count_correct, count_correct_err qs as' h']

/-- The match count never exceeds the number of questions. -/
theorem match_count_le (qs : List QuestionDict) (as' : List AnswerDict) :
    match_count qs as' ≤ qs.length :=
  le_trans (List.length_filter_le _ _) (by rw [List.length_zip]; exact min_le_left _ _)

/-- C1 (corrected): in the fallback quiz-evaluation path, for every
non-empty question list with one submitted answer per question, the
returned score is `int((correct/total)*100)` evaluated in IEEE binary64
arithmetic and truncated toward zero — not the rounded value the claim
states (and not the exact floor either: 29 of 100 gives 28) — where
`correct` counts the indices whose submitted answer equals the
question's `correctAnswer` after `.lower().strip()` on both sides; in
particular 7 of 10 gives 70, and the answer ` O(1) ` matches the
correct answer `O(1)`. -/
theorem fallback_quiz_score_float_trunc :
    (∀ (qs : List QuestionDict) (as' : List AnswerDict), qs ≠ [] →
      as'.length = qs.length →
        ∃ r, fallback_evaluate qs as' = .ok r ∧
          r.score = pyFloatScore (match_count qs as') qs.length) ∧
    pyFloatScore 7 10 = 70 ∧
    pyFloatScore 29 100 = 28 ∧
    answers_match ⟨some " O(1) "⟩ ⟨some "O(1)"⟩ = true := by
  refine ⟨?_, by decide, by decide, by decide⟩
  intro qs as' hne hlen
  have hok := count_correct_ok qs as' hlen.ge
  refine ⟨fallback_feedback (match_count qs as') qs.length, ?_, rfl⟩
  unfold fallback_evaluate
  rw [hok]

/-- Witness for C1: ten questions with correct answer `O(1)`, seven
answers ` O(1) ` and three wrong ones, score 70. -/
theorem fallback_quiz_score_float_trunc_witness :
    ∃ r, fallback_evaluate exampleQuestions10 exampleAnswers10 = .ok r ∧ r.score = 70 := by
  obtain ⟨r, h1, h2⟩ :=
    fallback_quiz_score_float_trunc.1 exampleQuestions10 exampleAnswers10
      (by decide) (by decide)
  exact ⟨r, h1, by rw [h2]; decide⟩

/-- Counterexample for C1 as stated: with 2 of 3 answers correct the
code returns `int(66.66...) = 66`, while `round(100·2/3) = 67`. -/
theorem fallback_quiz_round_counterexample :
    except_score (fallback_evaluate cexQuestions3 cexAnswers3) = some 66 ∧
    match_count cexQuestions3 cexAnswers3 = 2 ∧
    cexQuestions3.length = 3 ∧
    round ((100 * (2 : ℚ)) / 3) = 67 :=
  ⟨by decide, by decide, by decide, by norm_num [round_eq]⟩

/-- C8 (amended): a submission whose answer list is shorter than its
question list makes the fallback loop raise `IndexError`, which the
outer handler converts into an HTTP 500 error response — an error
status, not a warning-style success response. -/
theorem mismatched_answers_http500 (sub : QuizSubmission)
    (h : sub.answers.length < sub.questions.length) :
    evaluate_quiz_no_agent sub =
      ApiResult.httpError 500
        "Failed to evaluate quiz: IndexError: list index out of range" := by
  have herr := count_correct_err sub.questions sub.answers h
  have hfe : fallback_evaluate sub.questions sub.answers =
      .error "IndexError: list index out of range" := by
    unfold fallback_evaluate
    rw [herr]
  unfold evaluate_quiz_no_agent
  rw [hfe]
  rfl

/-- Witness for C8 (amended): two questions, one answer. -/
theorem mismatched_answers_http500_witness :
    evaluate_quiz_no_agent ⟨[⟨some "a"⟩, ⟨some "b"⟩], [⟨some "a"⟩], "t"⟩ =
      ApiResult.httpError 500
        "Failed to evaluate quiz: IndexError: list index out of range" :=
  mismatched_answers_http500 _ (by decide)

/-- Counterexample for C8 as stated: on a one-question, zero-answer
submission the endpoint surfaces an HTTP 500 error status. -/
theorem quiz_mismatch_is_error_not_warning :
    evaluate_quiz_no_agent ⟨[⟨some "a"⟩], [], "Python"⟩ =
      ApiResult.httpError 500
        "Failed to evaluate quiz: IndexError: list index out of range" := by
  decide

/-- C9: evaluating an empty question list via the fallback path returns
score 0 (the division is guarded by `total_questions > 0`) instead of
failing. -/
theorem empty_quiz_scores_zero (answers : List AnswerDict) (topic : String) :
    evaluate_quiz_no_agent ⟨[], answers, topic⟩ =
      ApiResult.ok
        { score := 0,
          feedback :=
            "Keep studying! Review the material and practice more to improve your understanding.",
          recommendations :=
            ["Review the questions you missed",
             "Practice with similar problems",
             "Focus on understanding the underlying concepts"],
          strengths := ["Correctly answered 0 out of 0 questions"],
          weaknesses := ["Missed 0 questions"],
          areas_for_improvement := ["Review incorrect answers", "Practice more problems"] } := by
  simp [evaluate_quiz_no_agent, fallback_evaluate, count_correct, fallback_feedback,
    pyFloatScore]
  exact ⟨rfl, rfl⟩

/-- C2: the source quality score is `0.0` on no sources, always lies in
`[0, 1]`, and on a non-empty source list equals the average over sources
of (number of the 5 trust keywords present, divided by 5), clamped to at
most 1. -/
theorem assess_source_quality_spec :
    ContentGeneratorAgent.assess_source_quality [] = 0 ∧
    (∀ S, 0 ≤ ContentGeneratorAgent.assess_source_quality S ∧
      ContentGeneratorAgent.assess_source_quality S ≤ 1) ∧
    (∀ S, S ≠ [] →
      ContentGeneratorAgent.assess_source_quality S =
        min (((S.map
          (fun s => (ContentGeneratorAgent.indicator_count s : ℚ) / 5)).sum) / S.length) 1) := by
  refine ⟨rfl, ?_, ?_⟩
  · intro S
    cases S with
    | nil =>
      constructor <;> norm_num [ContentGeneratorAgent.assess_source_quality]
    | cons a t =>
      have hsum : 0 ≤ ((a :: t).map
          (fun s => (ContentGeneratorAgent.indicator_count s : ℚ) /
            ContentGeneratorAgent.quality_indicators.length)).sum := by
        apply List.sum_nonneg
        intro x hx
        simp only [List.mem_map] at hx
        obtain ⟨s, _, rfl⟩ := hx
        positivity
      constructor
      · simp only [ContentGeneratorAgent.assess_source_quality, List.isEmpty_cons,
          Bool.false_eq_true, if_false]
        refine le_min (div_nonneg hsum (by positivity)) (by norm_num)
      · simp only [ContentGeneratorAgent.assess_source_quality, List.isEmpty_cons,
          Bool.false_eq_true, if_false]
        exact min_le_right _ _
  · intro S hS
    cases S with
    | nil => exact absurd rfl hS
    | cons a t =>
      simp only [ContentGeneratorAgent.assess_source_quality, List.isEmpty_cons,
        Bool.false_eq_true, if_false]
      norm_num [ContentGeneratorAgent.quality_indicators]

/-- Witness for C2: one snippet mentioning four of the five keywords. -/
theorem assess_source_quality_spec_witness :
    ContentGeneratorAgent.assess_source_quality [exampleSource] =
      min ((([exampleSource].map
        (fun s => (ContentGeneratorAgent.indicator_count s : ℚ) / 5)).sum) /
          ([exampleSource] : List ContentGeneratorAgent.Source).length) 1 :=
  assess_source_quality_spec.2.2 [exampleSource] (List.cons_ne_nil _ _)

/-- C3: the fallback content provider returns the fixed Python lesson
(whose key concepts, learning objectives and study materials are the
fixed constants, and whose body is fixed apart from the `# {topic}`
heading) exactly when the topic contains "python" case-insensitively;
any other topic gets the minimal templated stub, whose content contains
the topic and the subject verbatim. -/
theorem get_python_content_dispatch (topic difficulty subject content_type : String) :
    (strContains "python" (pyLower topic) = true →
      FallbackContentSystem.get_python_content topic difficulty subject content_type =
        FallbackContentSystem.pythonLesson topic) ∧
    (strContains "python" (pyLower topic) = false →
      FallbackContentSystem.get_python_content topic difficulty subject content_type =
        FallbackContentSystem.genericFallback topic subject ∧
      (∃ pre post : List Char,
        (FallbackContentSystem.genericFallback topic subject).content.data =
          pre ++ topic.data ++ post) ∧
      (∃ pre post : List Char,
        (FallbackContentSystem.genericFallback topic subject).content.data =
          pre ++ subject.data ++ post)) := by
  constructor
  · intro h
    simp [FallbackContentSystem.get_python_content, h]
  · intro h
    refine ⟨by simp [FallbackContentSystem.get_python_content, h], ?_, ?_⟩
    · refine ⟨"# ".data,
        ("\n\nThis is fallback content for " ++ topic ++ " in " ++ subject ++
          ". The AI content generation is currently unavailable due to API rate limits.").data, ?_⟩
      simp [FallbackContentSystem.genericFallback, String.data_append, List.append_assoc]
    · refine ⟨("# " ++ topic ++ "\n\nThis is fallback content for " ++ topic ++ " in ").data,
        ". The AI content generation is currently unavailable due to API rate limits.".data, ?_⟩
      simp [FallbackContentSystem.genericFallback, String.data_append, List.append_assoc]

/-- Witness for C3: one topic on each side of the dispatch. -/
theorem get_python_content_dispatch_witness :
    FallbackContentSystem.get_python_content "PYTHON Basics" "Easy" "CS" "Tutorial" =
      FallbackContentSystem.pythonLesson "PYTHON Basics" ∧
    FallbackContentSystem.get_python_content "Photosynthesis" "Easy" "Biology" "Tutorial" =
      FallbackContentSystem.genericFallback "Photosynthesis" "Biology" :=
  ⟨(get_python_content_dispatch "PYTHON Basics" "Easy" "CS" "Tutorial").1 (by decide),
   ((get_python_content_dispatch "Photosynthesis" "Easy" "Biology" "Tutorial").2 (by decide)).1⟩

/-- C10: the fallback content provider ignores its `difficulty` and
`content_type` arguments — the result depends only on topic and subject. -/
theorem get_python_content_ignores_extras
    (topic subject d₁ c₁ d₂ c₂ : String) :
    FallbackContentSystem.get_python_content topic d₁ subject c₁ =
      FallbackContentSystem.get_python_content topic d₂ subject c₂ := rfl

/-- The bullet filterMap is the bullet-prefixed image of the filtered
stripped lines. -/
theorem filterMap_bullet (l : List String) :
    (l.filterMap (fun raw =>
      let line := pyStrip raw
      if ContentGeneratorAgent.good_bullet_line line then
        some (ContentGeneratorAgent.bulletMarker ++ line) else none)) =
    ((l.map pyStrip).filter ContentGeneratorAgent.good_bullet_line).map
      (fun line => ContentGeneratorAgent.bulletMarker ++ line) := by
  induction l with
  | nil => rfl
  | cons a t ih =>
    by_cases h : ContentGeneratorAgent.good_bullet_line (pyStrip a) <;>
      simp [List.filterMap_cons, h, ih]

/-- A bullet-prefixed line never starts with the heading marker. -/
theorem bullet_not_heading (line : String) :
    pyStartsWith "#" (ContentGeneratorAgent.bulletMarker ++ line) = false := rfl

/-- C4: `_create_bullet_notes` joins at most 15 lines; they are exactly
the first 15 stripped input lines that are longer than 20 characters,
contain a period, are shorter than 200 characters and do not start with
`#`, each prefixed with the bullet marker; and every returned line
contains a period, is between 20 and 200 characters long (measured on
the line the bullet marker is attached to), and does not start with a
heading marker. -/
theorem create_bullet_notes_spec (content : String) :
    ContentGeneratorAgent.create_bullet_notes content =
      pyJoin "\n" ((ContentGeneratorAgent.bullet_notes_list content).take 15) ∧
    ((ContentGeneratorAgent.bullet_notes_list content).take 15).length ≤ 15 ∧
    (ContentGeneratorAgent.bullet_notes_list content).take 15 =
      ((((pySplit '\n' content).map pyStrip).filter
        ContentGeneratorAgent.good_bullet_line).take 15).map
        (fun line => ContentGeneratorAgent.bulletMarker ++ line) ∧
    ∀ s ∈ (ContentGeneratorAgent.bullet_notes_list content).take 15,
      ∃ line, s = ContentGeneratorAgent.bulletMarker ++ line ∧
        line.data.contains '.' = true ∧ 20 < line.length ∧ line.length < 200 ∧
        pyStartsWith "#" line = false ∧ pyStartsWith "#" s = false := by
  have hlist : ContentGeneratorAgent.bullet_notes_list content =
      (((pySplit '\n' content).map pyStrip).filter
        ContentGeneratorAgent.good_bullet_line).map
        (fun line => ContentGeneratorAgent.bulletMarker ++ line) :=
    filterMap_bullet _
  refine ⟨rfl, List.length_take_le _ _, ?_, ?_⟩
  · rw [hlist, List.map_take]
  · intro s hs
    rw [hlist, ← List.map_take] at hs
    obtain ⟨line, hmem, rfl⟩ := List.mem_map.mp hs
    have h2 := (List.mem_filter.mp (List.take_subset _ _ hmem)).2
    simp only [ContentGeneratorAgent.good_bullet_line, Bool.and_eq_true,
      decide_eq_true_eq, Bool.not_eq_true'] at h2
    obtain ⟨⟨⟨⟨-, hlen1⟩, hsw⟩, hdot⟩, hlen2⟩ := h2
    exact ⟨line, rfl, hdot, hlen1, hlen2, hsw, bullet_not_heading line⟩

/-- Witness for C4: a paragraph with one qualifying line. -/
theorem create_bullet_notes_spec_witness :
    ∃ line,
      ContentGeneratorAgent.bulletMarker ++
        "This sentence is long enough to qualify as a bullet point. Indeed." =
        ContentGeneratorAgent.bulletMarker ++ line ∧
      line.data.contains '.' = true ∧ 20 < line.length ∧ line.length < 200 ∧
      pyStartsWith "#" line = false ∧
      pyStartsWith "#"
        (ContentGeneratorAgent.bulletMarker ++
          "This sentence is long enough to qualify as a bullet point. Indeed.") = false :=
  (create_bullet_notes_spec exampleNotesInput).2.2.2 _ (by decide)

/-- The last element of `l ++ [a]` is `a`. -/
theorem last_of_append_singleton (l : List α) (a : α) :
    (l ++ [a]).getLast? = some a :=
  List.getLast?_concat _

/-- C5: `_suggest_diagrams` returns at most 3 suggestions, namely the
3-truncation of the fixed decision-table candidate list, which always
ends in "Summary Infographic"; for topic "Mitosis process" with more
than 5 entities the candidates are [Process Flow Diagram, Mind Map,
Concept Map, Summary Infographic] and the result is the first three. -/
theorem suggest_diagrams_spec :
    (∀ (topic : String) (entities : List ContentGeneratorAgent.Entity),
      ContentGeneratorAgent.suggest_diagrams topic entities =
        (ContentGeneratorAgent.suggestions_before_cap topic entities).take 3 ∧
      (ContentGeneratorAgent.suggest_diagrams topic entities).length ≤ 3 ∧
      (ContentGeneratorAgent.suggestions_before_cap topic entities).getLast? =
        some "Summary Infographic") ∧
    (∀ entities : List ContentGeneratorAgent.Entity, 5 < entities.length →
      ContentGeneratorAgent.suggestions_before_cap "Mitosis process" entities =
        ["Process Flow Diagram", "Mind Map", "Concept Map", "Summary Infographic"] ∧
      ContentGeneratorAgent.suggest_diagrams "Mitosis process" entities =
        ["Process Flow Diagram", "Mind Map", "Concept Map"]) := by
  constructor
  · intro topic entities
    exact ⟨rfl, List.length_take_le _ _, last_of_append_singleton _ _⟩
  · intro entities h
    have h1 : (["process", "cycle", "steps"].any
        fun w => strContains w (pyLower "Mitosis process")) = true := by decide
    have h2 : (["structure", "anatomy", "parts"].any
        fun w => strContains w (pyLower "Mitosis process")) = false := by decide
    have h3 : (["compare", "vs", "difference"].any
        fun w => strContains w (pyLower "Mitosis process")) = false := by decide
    constructor
    · simp [ContentGeneratorAgent.suggestions_before_cap, h1, h2, h3, h]
    · simp [ContentGeneratorAgent.suggest_diagrams,
        ContentGeneratorAgent.suggestions_before_cap, h1, h2, h3, h]

/-- Witness for C5: six entities. -/
theorem suggest_diagrams_spec_witness :
    ContentGeneratorAgent.suggestions_before_cap "Mitosis process" sixEntities =
      ["Process Flow Diagram", "Mind Map", "Concept Map", "Summary Infographic"] ∧
    ContentGeneratorAgent.suggest_diagrams "Mitosis process" sixEntities =
      ["Process Flow Diagram", "Mind Map", "Concept Map"] :=
  suggest_diagrams_spec.2 sixEntities (by decide)

/-!  Lemmas about the document-store primitives. -/

/-- A missing id is not found. -/
theorem findDoc_none_of_not_mem {l : List (Nat × α)} {sid : Nat}
    (h : sid ∉ l.map Prod.fst) : findDoc l sid = none := by
  induction l with
  | nil => rfl
  | cons p t ih =>
    obtain ⟨i, x⟩ := p
    simp only [List.map_cons, List.mem_cons, not_or] at h
    simp [findDoc, Ne.symm h.1, ih h.2]

/-- `updateById` rewrites only the first document with the given id. -/
theorem findDoc_updateById (l : List (Nat × α)) (id sid : Nat) (f : α → α) :
    findDoc (updateById l id f) sid =
      if sid = id then (findDoc l sid).map f else findDoc l sid := by
  induction l with
  | nil => simp [updateById, findDoc]
  | cons p t ih =>
    obtain ⟨i, d⟩ := p
    by_cases hi : i = id
    · subst hi
      by_cases hs : sid = i
      · subst hs
        simp [updateById, findDoc]
      · simp [updateById, findDoc, hs, Ne.symm hs]
    · by_cases hs : i = sid
      · subst hs
        have hne : i ≠ id := hi
        simp [updateById, findDoc, hi, Ne.symm hne]
      · simp [updateById, findDoc, hi, hs, ih]

/-- A lookup that succeeds still succeeds after appending documents. -/
theorem findDoc_append_left {l l₂ : List (Nat × α)} {sid : Nat} {d : α}
    (h : findDoc l sid = some d) : findDoc (l ++ l₂) sid = some d := by
  induction l with
  | nil => simp [findDoc] at h
  | cons p t ih =>
    obtain ⟨i, x⟩ := p
    by_cases hi : i = sid
    · simp only [List.cons_append, findDoc, if_pos hi] at h ⊢
      exact h
    · simp only [List.cons_append, findDoc, if_neg hi] at h ⊢
      exact ih h

/-- A successful lookup returns a member of the collection. -/
theorem findDoc_mem {l : List (Nat × α)} {sid : Nat} {d : α}
    (h : findDoc l sid = some d) : (sid, d) ∈ l := by
  induction l with
  | nil => simp [findDoc] at h
  | cons p t ih =>
    obtain ⟨i, x⟩ := p
    by_cases hi : i = sid
    · subst hi
      have h' : x = d := by simpa [findDoc] using h
      subst h'
      exact List.mem_cons_self _ _
    · simp only [findDoc, if_neg hi] at h
      exact List.mem_cons_of_mem _ (ih h)

/-- With distinct ids, filtering either keeps the looked-up document
unchanged or removes it. -/
theorem findDoc_filter_nodup {l : List (Nat × α)} {sid : Nat} {d : α}
    (q : Nat × α → Bool) (hnd : (l.map Prod.fst).Nodup)
    (h : findDoc l sid = some d) :
    findDoc (l.filter q) sid = some d ∨ findDoc (l.filter q) sid = none := by
  induction l with
  | nil => simp [findDoc] at h
  | cons p t ih =>
    obtain ⟨i, x⟩ := p
    simp only [List.map_cons, List.nodup_cons] at hnd
    by_cases hi : i = sid
    · subst hi
      have hd : x = d := by simpa [findDoc] using h
      subst hd
      cases hq : q (i, x) with
      | true =>
        left
        simp [List.filter_cons, hq, findDoc]
      | false =>
        right
        simp only [List.filter_cons, hq, Bool.false_eq_true, if_false]
        refine findDoc_none_of_not_mem ?_
        intro hmem
        obtain ⟨r, hr, hre⟩ := List.mem_map.mp hmem
        exact hnd.1 (List.mem_map.mpr ⟨r, List.mem_of_mem_filter hr, hre⟩)
    · have ht : findDoc t sid = some d := by simpa [findDoc, hi] using h
      rcases ih hnd.2 ht with hc | hc
      · cases hq : q (i, x) with
        | true => left; simpa [List.filter_cons, hq, findDoc, hi] using hc
        | false => left; simpa [List.filter_cons, hq] using hc
      · cases hq : q (i, x) with
        | true => right; simpa [List.filter_cons, hq, findDoc, hi] using hc
        | false => right; simpa [List.filter_cons, hq] using hc

/-- `updateById` preserves the id sequence. -/
theorem map_fst_updateById (l : List (Nat × α)) (id : Nat) (f : α → α) :
    (updateById l id f).map Prod.fst = l.map Prod.fst := by
  induction l with
  | nil => rfl
  | cons p t ih =>
    obtain ⟨i, d⟩ := p
    by_cases hi : i = id <;> simp [updateById, hi, ih]

/-- Members of `updateById` are members of the original collection or
rewritten ones. -/
theorem mem_updateById {l : List (Nat × α)} {p : Nat × α} (id : Nat) (f : α → α)
    (h : p ∈ updateById l id f) : p ∈ l ∨ ∃ q ∈ l, p = (q.1, f q.2) := by
  induction l with
  | nil => simp [updateById] at h
  | cons r t ih =>
    obtain ⟨i, d⟩ := r
    by_cases hi : i = id
    · simp only [updateById, if_pos hi] at h
      rcases List.mem_cons.mp h with h1 | h1
      · exact Or.inr ⟨(i, d), List.mem_cons_self _ _, h1⟩
      · exact Or.inl (List.mem_cons_of_mem _ h1)
    · simp only [updateById, if_neg hi] at h
      rcases List.mem_cons.mp h with h1 | h1
      · exact Or.inl (List.mem_cons.mpr (Or.inl h1))
      · rcases ih h1 with h2 | ⟨q, hq, he⟩
        · exact Or.inl (List.mem_cons_of_mem _ h2)
        · exact Or.inr ⟨q, List.mem_cons_of_mem _ hq, he⟩

/-- Every service call either leaves the session collection unchanged,
inserts one freshly-keyed active session, applies the end-session
update to one id, or filters the collection; the id counter never
decreases. -/
theorem applyOp_sessions_shape (op : ServiceOp) (db : DB) :
    ((applyOp op db).sessions = db.sessions ∧ db.nextId ≤ (applyOp op db).nextId) ∨
    (∃ a now, (applyOp op db).sessions =
        db.sessions ++ [(db.nextId, StudySessionModel.create_session a now)] ∧
      (applyOp op db).nextId = db.nextId + 1) ∨
    (∃ sid sc dur now, (applyOp op db).sessions =
        updateById db.sessions sid
          (applyEndSet (StudySessionModel.end_session sid sc dur now)) ∧
      (applyOp op db).nextId = db.nextId) ∨
    (∃ q, (applyOp op db).sessions = db.sessions.filter q ∧
      (applyOp op db).nextId = db.nextId) := by
  cases op with
  | addContent fail a now =>
    cases fail
    · exact Or.inl ⟨rfl, Nat.le_succ _⟩
    · exact Or.inl ⟨rfl, le_refl _⟩
  | getContentBySubject fail subject limit => exact Or.inl ⟨rfl, le_refl _⟩
  | searchContent fail query subject oracle => exact Or.inl ⟨rfl, le_refl _⟩
  | updateContentViews fail cid =>
    cases fail
    · exact Or.inl ⟨rfl, le_refl _⟩
    · exact Or.inl ⟨rfl, le_refl _⟩
  | saveUserProgress fail a now =>
    cases fail
    · exact Or.inl ⟨rfl, Nat.le_succ _⟩
    · exact Or.inl ⟨rfl, le_refl _⟩
  | getUserProgress fail uid subject => exact Or.inl ⟨rfl, le_refl _⟩
  | getUserPerformanceSummary fail uid o => exact Or.inl ⟨rfl, le_refl _⟩
  | addQuestion fail a now =>
    cases fail
    · exact Or.inl ⟨rfl, Nat.le_succ _⟩
    · exact Or.inl ⟨rfl, le_refl _⟩
  | getQuestionsByTopic fail s t diff limit => exact Or.inl ⟨rfl, le_refl _⟩
  | updateQuestionStats f1 f2 f3 qid ok t =>
    refine Or.inl ⟨?_, ?_⟩ <;>
    · cases f1 <;> cases f2 <;> cases f3 <;>
        simp only [applyOp, MongoDBService.update_question_stats] <;>
        (repeat' split) <;> rfl
  | createUser fail a now =>
    cases fail
    · exact Or.inl ⟨rfl, Nat.le_succ _⟩
    · exact Or.inl ⟨rfl, le_refl _⟩
  | getUser fail uid => exact Or.inl ⟨rfl, le_refl _⟩
  | updateUserPreferences fail uid p =>
    cases fail
    · exact Or.inl ⟨rfl, le_refl _⟩
    · exact Or.inl ⟨rfl, le_refl _⟩
  | startStudySession fail a now =>
    cases fail
    · exact Or.inr (Or.inl ⟨a, now, rfl, rfl⟩)
    · exact Or.inl ⟨rfl, le_refl _⟩
  | endStudySession fail sid sc dur now =>
    cases fail
    · exact Or.inr (Or.inr (Or.inl ⟨sid, sc, dur, now, rfl, rfl⟩))
    · exact Or.inl ⟨rfl, le_refl _⟩
  | getUserSessions fail uid limit => exact Or.inl ⟨rfl, le_refl _⟩
  | getSubjectAnalytics fail s o => exact Or.inl ⟨rfl, le_refl _⟩
  | getDailyActivity fail d o => exact Or.inl ⟨rfl, le_refl _⟩
  | createTextIndexes fail => exact Or.inl ⟨rfl, le_refl _⟩
  | cleanupOldSessions fail cutoff =>
    cases fail
    · exact Or.inr (Or.inr (Or.inr ⟨_, rfl, rfl⟩))
    · exact Or.inl ⟨rfl, le_refl _⟩

/-- Well-formedness is preserved by every service call. -/
theorem wf_applyOp {db : DB} (h : DBwf db) (op : ServiceOp) : DBwf (applyOp op db) := by
  rcases applyOp_sessions_shape op db with
    ⟨hs, hn⟩ | ⟨a, now, hs, hn⟩ | ⟨sid, sc, dur, now, hs, hn⟩ | ⟨q, hs, hn⟩
  · exact ⟨by rw [hs]; exact h.1,
      fun p hp => lt_of_lt_of_le (h.2 p (by rwa [hs] at hp)) hn⟩
  · constructor
    · rw [hs, List.map_append]
      refine List.Nodup.append h.1 (List.nodup_singleton _) ?_
      intro x hx hx2
      obtain ⟨r, hr, hre⟩ := List.mem_map.mp hx
      simp only [List.map_cons, List.map_nil, List.mem_singleton] at hx2
      exact absurd (hre.symm ▸ h.2 r hr) (by rw [hx2]; exact lt_irrefl _)
    · intro p hp
      rw [hs] at hp
      rw [hn]
      rcases List.mem_append.mp hp with hp1 | hp1
      · exact lt_trans (h.2 p hp1) (Nat.lt_succ_self _)
      · simp only [List.mem_singleton] at hp1
        rw [hp1]
        exact Nat.lt_succ_self _
  · constructor
    · rw [hs, map_fst_updateById]
      exact h.1
    · intro p hp
      rw [hs] at hp
      rw [hn]
      rcases mem_updateById _ _ hp with hp1 | ⟨r, hr, he⟩
      · exact h.2 p hp1
      · rw [he]
        exact h.2 r hr
  · constructor
    · rw [hs]
      exact h.1.sublist ((List.filter_sublist _).map _)
    · intro p hp
      rw [hs] at hp
      rw [hn]
      exact h.2 p (List.mem_of_mem_filter hp)

/-- Status membership in `{active, completed}` is preserved by every
service call. -/
theorem statusOk_applyOp {db : DB}
    (h : ∀ p ∈ db.sessions, sessionStatusOk p.2) (op : ServiceOp) :
    ∀ p ∈ (applyOp op db).sessions, sessionStatusOk p.2 := by
  rcases applyOp_sessions_shape op db with
    ⟨hs, -⟩ | ⟨a, now, hs, -⟩ | ⟨sid, sc, dur, now, hs, -⟩ | ⟨q, hs, -⟩
  · rw [hs]; exact h
  · intro p hp
    rw [hs] at hp
    rcases List.mem_append.mp hp with hp1 | hp1
    · exact h p hp1
    · simp only [List.mem_singleton] at hp1
      rw [hp1]
      exact Or.inl rfl
  · intro p hp
    rw [hs] at hp
    rcases mem_updateById _ _ hp with hp1 | ⟨r, hr, he⟩
    · exact h p hp1
    · rw [he]
      exact Or.inr rfl
  · intro p hp
    rw [hs] at hp
    exact h p (List.mem_of_mem_filter hp)

/-- Well-formedness of every reachable store. -/
theorem wf_foldl :
    ∀ (ops : List ServiceOp) (db : DB), DBwf db →
      DBwf (ops.foldl (fun db op => applyOp op db) db)
  | [], _, h => h
  | op :: ops, db, h => wf_foldl ops _ (wf_applyOp h op)

/-- The empty store is well formed. -/
theorem wf_emptyDB : DBwf emptyDB :=
  ⟨List.nodup_nil, fun p hp => absurd hp (List.not_mem_nil p)⟩

/-- Every store reachable by service calls is well formed. -/
theorem wf_applyOps (ops : List ServiceOp) : DBwf (applyOps ops) :=
  wf_foldl ops emptyDB wf_emptyDB

/-- Status invariant along a fold. -/
theorem statusOk_foldl :
    ∀ (ops : List ServiceOp) (db : DB),
      (∀ p ∈ db.sessions, sessionStatusOk p.2) →
      ∀ p ∈ (ops.foldl (fun db op => applyOp op db) db).sessions, sessionStatusOk p.2
  | [], _, h => h
  | op :: ops, db, h => statusOk_foldl ops _ (statusOk_applyOp h op)

/-- Every session in a reachable store is active or completed. -/
theorem statusOk_applyOps (ops : List ServiceOp) :
    ∀ p ∈ (applyOps ops).sessions, sessionStatusOk p.2 :=
  statusOk_foldl ops emptyDB (fun p hp => absurd hp (List.not_mem_nil p))

/-- In a well-formed store no service call moves a completed session out
of status `completed`. -/
theorem completed_preserved {db : DB} (hwf : DBwf db) (op : ServiceOp)
    {sid : Nat} {d d' : SessionDoc}
    (h : findDoc db.sessions sid = some d) (hc : d.status = "completed")
    (h' : findDoc (applyOp op db).sessions sid = some d') :
    d'.status = "completed" := by
  rcases applyOp_sessions_shape op db with
    ⟨hs, -⟩ | ⟨a, now, hs, -⟩ | ⟨i, sc, dur, now, hs, -⟩ | ⟨q, hs, -⟩
  · rw [hs, h] at h'
    cases h'
    exact hc
  · rw [hs, findDoc_append_left h] at h'
    cases h'
    exact hc
  · rw [hs, findDoc_updateById] at h'
    by_cases hsi : sid = i
    · rw [if_pos hsi, h] at h'
      cases h'
      rfl
    · rw [if_neg hsi, h] at h'
      cases h'
      exact hc
  · rw [hs] at h'
    rcases findDoc_filter_nodup q hwf.1 h with hcase | hcase <;> rw [hcase] at h'
    · cases h'
      exact hc
    · exact Option.noConfusion h'

/-- C6: a created StudySession document has status "active" and null
end_time, and `start_study_session` inserts exactly that document; after
a successful `end_study_session` the matched session has status
"completed", its end_time set, and the duration and score passed to the
call; in every reachable store each session is either active or
completed, and no service operation moves a completed session back to
"active" or to any third value. -/
theorem study_session_lifecycle :
    (∀ (a : SessionArgs) (now : Nat),
      (StudySessionModel.create_session a now).status = "active" ∧
      (StudySessionModel.create_session a now).end_time = none) ∧
    (∀ (a : SessionArgs) (now : Nat) (db : DB),
      (MongoDBService.start_study_session false a now db).2.sessions =
        db.sessions ++ [(db.nextId, StudySessionModel.create_session a now)]) ∧
    (∀ (sid : Nat) (sc : ℚ) (dur : Int) (now : Nat) (db : DB) (d : SessionDoc),
      findDoc db.sessions sid = some d →
        findDoc (MongoDBService.end_study_session false sid sc dur now db).2.sessions sid =
          some { d with end_time := some now, duration := dur, score := sc,
                        status := "completed" }) ∧
    (∀ (ops : List ServiceOp) (sid : Nat) (d : SessionDoc),
      findDoc (applyOps ops).sessions sid = some d →
        d.status = "active" ∨ d.status = "completed") ∧
    (∀ (ops : List ServiceOp) (op : ServiceOp) (sid : Nat) (d d' : SessionDoc),
      findDoc (applyOps ops).sessions sid = some d → d.status = "completed" →
        findDoc (applyOp op (applyOps ops)).sessions sid = some d' →
          d'.status = "completed") := by
  refine ⟨fun a now => ⟨rfl, rfl⟩, fun a now db => rfl, ?_, ?_, ?_⟩
  · intro sid sc dur now db d h
    show findDoc (updateById db.sessions sid _) sid = _
    rw [findDoc_updateById, if_pos rfl, h]
    rfl
  · intro ops sid d h
    exact statusOk_applyOps ops (sid, d) (findDoc_mem h)
  · intro ops op sid d d' h hc h'
    exact completed_preserved (wf_applyOps ops) op h hc h'

/-- Witness for C6: start one session at time 5, end it with score 95
and duration 60 at time 9. -/
theorem study_session_lifecycle_witness :
    findDoc (MongoDBService.end_study_session false 0 95 60 9 dbWithSession).2.sessions 0 =
      some { StudySessionModel.create_session exampleSessionArgs 5 with
             end_time := some 9, duration := 60, score := 95, status := "completed" } :=
  study_session_lifecycle.2.2.1 0 95 60 9 dbWithSession
    (StudySessionModel.create_session exampleSessionArgs 5) rfl

/-- C7: when the underlying document store raises, no `MongoDBService`
operation propagates the exception: each returns its failure sentinel
(`None` for inserts and single-document lookups, the empty list for
queries, a plain return for void operations) and the store is left as
it was at the failing call. -/
theorem service_errors_return_sentinels :
    (∀ a now db, MongoDBService.add_content true a now db = (none, db)) ∧
    (∀ s l db, MongoDBService.get_content_by_subject true s l db = []) ∧
    (∀ q s o, MongoDBService.search_content true q s o = []) ∧
    (∀ cid db, MongoDBService.update_content_views true cid db = ((), db)) ∧
    (∀ a now db, MongoDBService.save_user_progress true a now db = (none, db)) ∧
    (∀ u s db, MongoDBService.get_user_progress true u s db = []) ∧
    (∀ u o, MongoDBService.get_user_performance_summary true u o = []) ∧
    (∀ a now db, MongoDBService.add_question true a now db = (none, db)) ∧
    (∀ s t d l db, MongoDBService.get_questions_by_topic true s t d l db = []) ∧
    (∀ f2 f3 qid ok tt db,
      MongoDBService.update_question_stats true f2 f3 qid ok tt db = ((), db)) ∧
    (∀ a now db, MongoDBService.create_user true a now db = (none, db)) ∧
    (∀ uid db, MongoDBService.get_user true uid db = none) ∧
    (∀ uid p db, MongoDBService.update_user_preferences true uid p db = ((), db)) ∧
    (∀ a now db, MongoDBService.start_study_session true a now db = (none, db)) ∧
    (∀ sid sc dur now db,
      MongoDBService.end_study_session true sid sc dur now db = ((), db)) ∧
    (∀ u l db, MongoDBService.get_user_sessions true u l db = []) ∧
    (∀ s o, MongoDBService.get_subject_analytics true s o = []) ∧
    (∀ d o, MongoDBService.get_daily_activity true d o = []) ∧
    (∀ db, MongoDBService.create_text_indexes true db = ((), db)) ∧
    (∀ c db, MongoDBService.cleanup_old_sessions true c db = ((), db)) := by
  refine ⟨?_, ?_, ?_, ?_, ?_, ?_, ?_, ?_, ?_, ?_, ?_, ?_, ?_, ?_, ?_, ?_, ?_, ?_, ?_, ?_⟩ <;>
    intros <;> rfl
